import Mathlib

/-!
Shallow embedding of the digigarden interactive canvas controller
(`src/app/page.tsx` — the `GardenPage` client component, present in two
revisions — plus the `/api/flowers` route handlers and helpers).

Conventions:
* JavaScript numbers are modelled as rationals (`ℚ`); every quantity the
  program manipulates here stays exact in IEEE doubles (small integers and
  halves), so `ℚ` arithmetic agrees with the source's arithmetic.
* React `useState` cells become fields of `GardenState`; each event handler
  becomes a function `GardenState → GardenState`.
* The `useEffect` that forces `scrollSpeed` to zero whenever
  `userState !== 'normal'` runs after every state change and before any
  further event, so it is folded into the step function as a normalization.
* The `requestAnimationFrame` scroll loop only runs while
  `userState === 'normal' && scrollSpeed !== 0`; one iteration is the
  `tick` event.
-/

namespace Digigarden

/-- A marker row as held client-side (`Flower` type): identifier, slug,
display title, message, optional author, world position, category tag. -/
structure Flower where
  id : String
  slug : String
  title : String
  message : String
  author : Option String
  x : ℚ
  y : ℚ
  flower : String
  deriving DecidableEq, Repr

/-- Source union `type UserState = 'normal' | 'viewing' | 'planting'` — the interaction
mode: `normal` is free browsing, `viewing` inspects a selected flower,
`planting` holds a pending placement point. -/
inductive UserState
  | normal
  | viewing
  | planting
  deriving DecidableEq, Repr

/-- The `useState` cells of `GardenPage` that the claims are about. -/
structure GardenState where
  userState : UserState
  offset : ℚ
  scrollSpeed : ℚ
  preZoomOffset : ℚ
  allFlowers : List Flower
  selectedFlower : Option Flower
  plantingPosition : Option (ℚ × ℚ)
  deriving DecidableEq, Repr

/-- Handler `handleFlowerClick`: store the current offset in `preZoomOffset`,
select the flower, enter `viewing`. -/
def handleFlowerClick (f : Flower) (s : GardenState) : GardenState :=
  { s with preZoomOffset := s.offset, selectedFlower := some f, userState := .viewing }

/-- Handler `handleExitViewing`: restore `offset := preZoomOffset`, return to
`normal`, clear the selection. -/
def handleExitViewing (s : GardenState) : GardenState :=
  { s with offset := s.preZoomOffset, userState := .normal, selectedFlower := none }

/-- Handler `handleGrassClick`: while viewing, exit viewing; while planting, ignore;
otherwise capture `preZoomOffset := offset` and, when the click falls inside
the band (`0 ≤ clickY ≤ rect.height`), enter `planting` with the world point
`(clickX - offset, clickY)`. -/
def handleGrassClick (clickX clickY rectHeight : ℚ) (s : GardenState) : GardenState :=
  if s.userState = .viewing then handleExitViewing s
  else if s.userState = .planting then s
  else
    let s1 := { s with preZoomOffset := s.offset }
    if 0 ≤ clickY ∧ clickY ≤ rectHeight then
      { s1 with plantingPosition := some (clickX - s.offset, clickY), userState := .planting }
    else s1

/-- Handler `handleExitPlanting`: restore `offset := preZoomOffset`, return to
`normal`, drop the pending placement point. -/
def handleExitPlanting (s : GardenState) : GardenState :=
  { s with offset := s.preZoomOffset, userState := .normal, plantingPosition := none }

/-- The placement-success insertion `setAllFlowers(prev => [...prev, flower])`:
an unconditional append. -/
def plantInsert (prev : List Flower) (f : Flower) : List Flower :=
  prev ++ [f]

/-- Handler `handlePlantSuccess` (highlight timer modelled separately): append the new
flower, restore `offset := preZoomOffset`, return to `normal`, drop the
placement point. -/
def handlePlantSuccess (f : Flower) (s : GardenState) : GardenState :=
  { s with allFlowers := plantInsert s.allFlowers f,
           offset := s.preZoomOffset, userState := .normal, plantingPosition := none }

/-- The edge-scroll computation inside `handleMouseMove`
(`edgeThreshold = 200`, `maxSpeed = 8`). -/
def edgeScrollSpeed (px w : ℚ) : ℚ :=
  let edgeThreshold : ℚ := 200
  let maxSpeed : ℚ := 8
  let distanceFromLeft := px
  let distanceFromRight := w - px
  if distanceFromLeft < edgeThreshold then
    maxSpeed * (1 - distanceFromLeft / edgeThreshold)
  else if distanceFromRight < edgeThreshold then
    -(maxSpeed * (1 - distanceFromRight / edgeThreshold))
  else 0

/-- Handler `handleMouseMove`: outside `normal` the requested velocity is clamped to
zero; in `normal` the edge-scroll policy sets it. -/
def handleMouseMove (px w : ℚ) (s : GardenState) : GardenState :=
  if s.userState ≠ .normal then { s with scrollSpeed := 0 }
  else { s with scrollSpeed := edgeScrollSpeed px w }

/-- Handler `handleMouseLeave`: stop scrolling. -/
def handleMouseLeave (s : GardenState) : GardenState :=
  { s with scrollSpeed := 0 }

/-- One iteration of the auto-scroll effect: it is only scheduled while
`userState === 'normal' && scrollSpeed !== 0`, and then does
`setOffset(prev => prev + scrollSpeed)`. -/
def scrollTick (s : GardenState) : GardenState :=
  if s.userState = .normal ∧ s.scrollSpeed ≠ 0 then
    { s with offset := s.offset + s.scrollSpeed }
  else s

/-- The `useEffect` clearing scroll when entering viewing or planting:
`if (userState !== 'normal') setScrollSpeed(0)`. It runs after each state
change, before any later event. -/
def clampScrollEffect (s : GardenState) : GardenState :=
  if s.userState ≠ .normal then { s with scrollSpeed := 0 } else s

/-- Discrete events driving `GardenPage`.  Deep-link resolution invokes
`handleFlowerClick` directly, so it is covered by `flowerClick`. -/
inductive Event
  | flowerClick (f : Flower)
  | grassClick (clickX clickY rectHeight : ℚ)
  | exitViewing
  | exitPlanting
  | plantSuccess (f : Flower)
  | mouseMove (px w : ℚ)
  | mouseLeave
  | tick

/-- The raw handler dispatch. -/
def rawStep : Event → GardenState → GardenState
  | .flowerClick f, s => handleFlowerClick f s
  | .grassClick cx cy rh, s => handleGrassClick cx cy rh s
  | .exitViewing, s => handleExitViewing s
  | .exitPlanting, s => handleExitPlanting s
  | .plantSuccess f, s => handlePlantSuccess f s
  | .mouseMove px w, s => handleMouseMove px w s
  | .mouseLeave, s => handleMouseLeave s
  | .tick, s => scrollTick s

/-- One event followed by the scroll-clamping effect. -/
def step (e : Event) (s : GardenState) : GardenState :=
  clampScrollEffect (rawStep e s)

/-- Run a sequence of events. -/
def run (s : GardenState) (es : List Event) : GardenState :=
  es.foldl (fun t e => step e t) s

/-- The component's initial state (after the bulk load delivered `fs`). -/
def initState (fs : List Flower) : GardenState :=
  { userState := .normal, offset := 0, scrollSpeed := 0, preZoomOffset := 0,
    allFlowers := fs, selectedFlower := none, plantingPosition := none }

/-- The reachable-state invariant: in a zoomed mode the live offset equals
the saved one and the scroll velocity is zero. -/
def Inv (s : GardenState) : Prop :=
  s.userState ≠ .normal → s.offset = s.preZoomOffset ∧ s.scrollSpeed = 0

theorem run_append (s : GardenState) (es fs : List Event) :
    run s (es ++ fs) = run (run s es) fs :=
  List.foldl_append ..

theorem step_inv (e : Event) (s : GardenState) (h : Inv s) : Inv (step e s) := by
  cases e with
  | flowerClick f =>
      intro _
      simp [step, rawStep, handleFlowerClick, clampScrollEffect]
  | grassClick cx cy rh =>
      intro hz
      by_cases hv : s.userState = .viewing
      · simp [step, rawStep, handleGrassClick, hv, handleExitViewing, clampScrollEffect] at hz
      · by_cases hp : s.userState = .planting
        · have hinv := h (by simp [hp])
          simp [step, rawStep, handleGrassClick, hv, hp, clampScrollEffect, hinv.1]
        · by_cases hband : 0 ≤ cy ∧ cy ≤ rh
          · simp [step, rawStep, handleGrassClick, hv, hp, hband, clampScrollEffect]
          · have hn : s.userState = .normal := by
              cases hu : s.userState <;> simp_all
            simp [step, rawStep, handleGrassClick, hv, hp, hband, clampScrollEffect, hn] at hz
  | exitViewing =>
      intro hz
      simp [step, rawStep, handleExitViewing, clampScrollEffect] at hz
  | exitPlanting =>
      intro hz
      simp [step, rawStep, handleExitPlanting, clampScrollEffect] at hz
  | plantSuccess f =>
      intro hz
      simp [step, rawStep, handlePlantSuccess, clampScrollEffect] at hz
  | mouseMove px w =>
      intro hz
      have hzz : s.userState ≠ .normal := by
        intro hn
        apply hz
        simp [step, rawStep, handleMouseMove, hn, clampScrollEffect]
      have hinv := h hzz
      simp [step, rawStep, handleMouseMove, hzz, clampScrollEffect, hinv.1]
  | mouseLeave =>
      intro hz
      have hzz : s.userState ≠ .normal := by
        intro hn
        apply hz
        simp [step, rawStep, handleMouseLeave, clampScrollEffect, hn]
      have hinv := h hzz
      simp [step, rawStep, handleMouseLeave, clampScrollEffect, hzz, hinv.1]
  | tick =>
      intro hz
      have hzz : s.userState ≠ .normal := by
        intro hn
        apply hz
        by_cases hs : s.scrollSpeed = 0
        · simp [step, rawStep, scrollTick, clampScrollEffect, hn, hs]
        · simp [step, rawStep, scrollTick, clampScrollEffect, hn, hs]
      have hinv := h hzz
      have hcond : ¬(s.userState = .normal ∧ s.scrollSpeed ≠ 0) := fun hc => hzz hc.1
      simp [step, rawStep, scrollTick, clampScrollEffect, hcond, hzz, hinv.1]

theorem run_inv (s : GardenState) (es : List Event) (h : Inv s) : Inv (run s es) := by
  induction es generalizing s with
  | nil => exact h
  | cons e es ih =>
      have : run s (e :: es) = run (step e s) es := rfl
      rw [this]
      exact ih _ (step_inv e s h)

theorem exit_restores (e : Event) (s : GardenState) (hz : s.userState ≠ .normal)
    (hexit : (step e s).userState = .normal) :
    (step e s).offset = s.preZoomOffset := by
  cases e with
  | flowerClick f =>
      simp [step, rawStep, handleFlowerClick, clampScrollEffect] at hexit
  | grassClick cx cy rh =>
      by_cases hv : s.userState = .viewing
      · simp [step, rawStep, handleGrassClick, hv, handleExitViewing, clampScrollEffect]
      · have hp : s.userState = .planting := by cases hu : s.userState <;> simp_all
        simp [step, rawStep, handleGrassClick, hv, hp, clampScrollEffect] at hexit
  | exitViewing =>
      simp [step, rawStep, handleExitViewing, clampScrollEffect]
  | exitPlanting =>
      simp [step, rawStep, handleExitPlanting, clampScrollEffect]
  | plantSuccess f =>
      simp [step, rawStep, handlePlantSuccess, clampScrollEffect]
  | mouseMove px w =>
      simp [step, rawStep, handleMouseMove, hz, clampScrollEffect] at hexit
  | mouseLeave =>
      simp [step, rawStep, handleMouseLeave, clampScrollEffect, hz] at hexit
  | tick =>
      have hcond : ¬(s.userState = .normal ∧ s.scrollSpeed ≠ 0) := fun hc => hz hc.1
      simp [step, rawStep, scrollTick, hcond, clampScrollEffect, hz] at hexit

theorem zoom_preserves_capture (e : Event) (s : GardenState) (h : Inv s)
    (hz : s.userState ≠ .normal) (hz' : (step e s).userState ≠ .normal) :
    (step e s).preZoomOffset = s.preZoomOffset := by
  cases e with
  | flowerClick f =>
      simp [step, rawStep, handleFlowerClick, clampScrollEffect, (h hz).1]
  | grassClick cx cy rh =>
      by_cases hv : s.userState = .viewing
      · simp [step, rawStep, handleGrassClick, hv, handleExitViewing, clampScrollEffect] at hz'
      · have hp : s.userState = .planting := by cases hu : s.userState <;> simp_all
        simp [step, rawStep, handleGrassClick, hv, hp, clampScrollEffect]
  | exitViewing =>
      simp [step, rawStep, handleExitViewing, clampScrollEffect] at hz'
  | exitPlanting =>
      simp [step, rawStep, handleExitPlanting, clampScrollEffect] at hz'
  | plantSuccess f =>
      simp [step, rawStep, handlePlantSuccess, clampScrollEffect] at hz'
  | mouseMove px w =>
      simp [step, rawStep, handleMouseMove, hz, clampScrollEffect]
  | mouseLeave =>
      simp [step, rawStep, handleMouseLeave, clampScrollEffect, hz]
  | tick =>
      have hcond : ¬(s.userState = .normal ∧ s.scrollSpeed ≠ 0) := fun hc => hz hc.1
      simp [step, rawStep, scrollTick, hcond, clampScrollEffect, hz]

theorem entry_captures (e : Event) (s : GardenState) (hn : s.userState = .normal)
    (hz : (step e s).userState ≠ .normal) :
    (step e s).preZoomOffset = s.offset := by
  cases e with
  | flowerClick f =>
      simp [step, rawStep, handleFlowerClick, clampScrollEffect]
  | grassClick cx cy rh =>
      by_cases hband : 0 ≤ cy ∧ cy ≤ rh
      · simp [step, rawStep, handleGrassClick, hn, hband, clampScrollEffect]
      · simp [step, rawStep, handleGrassClick, hn, hband, clampScrollEffect] at hz
  | exitViewing =>
      simp [step, rawStep, handleExitViewing, clampScrollEffect] at hz
  | exitPlanting =>
      simp [step, rawStep, handleExitPlanting, clampScrollEffect] at hz
  | plantSuccess f =>
      simp [step, rawStep, handlePlantSuccess, clampScrollEffect] at hz
  | mouseMove px w =>
      simp [step, rawStep, handleMouseMove, hn, clampScrollEffect] at hz
  | mouseLeave =>
      simp [step, rawStep, handleMouseLeave, clampScrollEffect, hn] at hz
  | tick =>
      by_cases hs : s.scrollSpeed = 0
      · simp [step, rawStep, scrollTick, hn, hs, clampScrollEffect] at hz
      · simp [step, rawStep, scrollTick, hn, hs, clampScrollEffect] at hz

/-- A trace along which the component stays in a zoomed mode: every prefix of
the trace leaves the state outside `normal`. -/
def ZoomedAlong (s : GardenState) (ms : List Event) : Prop :=
  ∀ i, i ≤ ms.length → (run s (ms.take i)).userState ≠ .normal

theorem zoomedAlong_run (ms : List Event) (s : GardenState) (hInv : Inv s)
    (hz : ZoomedAlong s ms) :
    (run s ms).preZoomOffset = s.preZoomOffset ∧ Inv (run s ms)
      ∧ (run s ms).userState ≠ .normal := by
  induction ms generalizing s with
  | nil =>
      refine ⟨rfl, hInv, ?_⟩
      have := hz 0 (by simp)
      simpa using this
  | cons m ms ih =>
      have h0 : s.userState ≠ .normal := by
        have := hz 0 (by simp)
        simpa using this
      have h1 : (step m s).userState ≠ .normal := by
        have := hz 1 (by simp)
        simpa [run] using this
      have hz' : ZoomedAlong (step m s) ms := by
        intro i hi
        have := hz (i + 1) (by simpa using Nat.succ_le_succ hi)
        simpa [run] using this
      have hrec := ih (step m s) (step_inv m s hInv) hz'
      have hpres := zoom_preserves_capture m s hInv h0 h1
      refine ⟨?_, hrec.2.1, hrec.2.2⟩
      rw [show run s (m :: ms) = run (step m s) ms from rfl, hrec.1, hpres]

/-- Claim C1: for every event sequence that enters a zoomed mode (`viewing`
via a flower click or `planting` via an in-band grass click) and later
returns to `normal` (explicit close or cancel, grass click while viewing, or
successful placement), the camera offset after the return equals the offset
that was captured into `preZoomOffset` at the most recent entry into the
zoomed mode — which is exactly the offset at the moment of entry. -/
theorem save_restore_symmetry (fs : List Flower) (es ms : List Event) (eEntry eExit : Event)
    (hBrowsing : (run (initState fs) es).userState = .normal)
    (hEnter : (step eEntry (run (initState fs) es)).userState ≠ .normal)
    (hZoomed : ZoomedAlong (step eEntry (run (initState fs) es)) ms)
    (hExit : (step eExit (run (step eEntry (run (initState fs) es)) ms)).userState = .normal) :
    (step eExit (run (step eEntry (run (initState fs) es)) ms)).offset
      = (run (initState fs) es).offset := by
  have hInv0 : Inv (run (initState fs) es) :=
    run_inv _ _ (fun hn => absurd rfl hn)
  have hcap : (step eEntry (run (initState fs) es)).preZoomOffset
      = (run (initState fs) es).offset :=
    entry_captures eEntry _ hBrowsing hEnter
  have hInv1 : Inv (step eEntry (run (initState fs) es)) :=
    step_inv eEntry _ hInv0
  have hAlong := zoomedAlong_run ms _ hInv1 hZoomed
  have hres := exit_restores eExit _ hAlong.2.2 hExit
  rw [hres, hAlong.1, hcap]

theorem save_restore_symmetry_witness :
    (step .exitPlanting
        (run (step (.grassClick 500 120 600) (run (initState []) [.mouseMove 0 1024, .tick]))
          [.tick, .mouseMove 100 1024])).offset
      = (run (initState []) [.mouseMove 0 1024, .tick]).offset := by
  apply save_restore_symmetry [] [.mouseMove 0 1024, .tick] [.tick, .mouseMove 100 1024]
      (.grassClick 500 120 600) .exitPlanting
  · norm_num [run, step, rawStep, initState, handleMouseMove, edgeScrollSpeed, scrollTick,
      clampScrollEffect]
  · norm_num [run, step, rawStep, initState, handleMouseMove, edgeScrollSpeed, scrollTick,
      clampScrollEffect, handleGrassClick, handleExitViewing]
    all_goals decide
  · intro i hi
    simp only [List.length_cons, List.length_nil, Nat.zero_add] at hi
    interval_cases i <;>
      norm_num [run, step, rawStep, initState, handleMouseMove, edgeScrollSpeed, scrollTick,
        clampScrollEffect, handleGrassClick, handleExitViewing] <;>
      all_goals decide
  · norm_num [run, step, rawStep, initState, handleMouseMove, edgeScrollSpeed, scrollTick,
      clampScrollEffect, handleGrassClick, handleExitViewing, handleExitPlanting]

/-- Claim C6: whenever the mode is not free browsing the scroll velocity is
zero: along every reachable trace a zoomed state has `scrollSpeed = 0`, a
mouse-move in a zoomed state clamps any requested velocity to zero, and a
scroll tick never changes the offset outside `normal`. -/
theorem scroll_velocity_zero_outside_browsing (fs : List Flower) (es : List Event) :
    ((run (initState fs) es).userState ≠ .normal → (run (initState fs) es).scrollSpeed = 0)
    ∧ (∀ (s : GardenState) (px w : ℚ), s.userState ≠ .normal →
        (handleMouseMove px w s).scrollSpeed = 0)
    ∧ (∀ s : GardenState, s.userState ≠ .normal → (step .tick s).offset = s.offset) := by
  refine ⟨fun hz => (run_inv _ _ (fun hn => absurd rfl hn) hz).2, ?_, ?_⟩
  · intro s px w hz
    simp [handleMouseMove, hz]
  · intro s hz
    have hcond : ¬(s.userState = .normal ∧ s.scrollSpeed ≠ 0) := fun hc => hz hc.1
    simp [step, rawStep, scrollTick, hcond, clampScrollEffect, hz]

theorem scroll_velocity_zero_outside_browsing_witness :
    (run (initState []) [.mouseMove 0 1024, .grassClick 500 120 600]).scrollSpeed = 0 := by
  apply (scroll_velocity_zero_outside_browsing [] [.mouseMove 0 1024, .grassClick 500 120 600]).1
  norm_num [run, step, rawStep, initState, handleMouseMove, edgeScrollSpeed, clampScrollEffect,
    handleGrassClick, handleExitViewing]
  all_goals decide

/-- A concrete flower used by witnesses and counterexamples. -/
def sampleFlower (i : String) (x y : ℚ) : Flower :=
  { id := i, slug := i, title := "title", message := "message", author := none,
    x := x, y := y, flower := "red-tulip" }

/-- The fixed culling buffer (`const buffer = 300`). -/
def cullBuffer : ℚ := 300

/-- Memo `visibleFlowers` (the `useMemo` viewport culling): all flowers while
viewing or planting; otherwise keep the flowers whose
`screenX = flower.x + offset` satisfies
`screenX > -buffer && screenX < viewportWidth + buffer`. -/
def visibleFlowers (userState : UserState) (allFlowers : List Flower)
    (offset viewportWidth : ℚ) : List Flower :=
  if userState = .viewing ∨ userState = .planting then allFlowers
  else
    allFlowers.filter fun flower =>
      decide (flower.x + offset > -cullBuffer ∧ flower.x + offset < viewportWidth + cullBuffer)

/-- Claim C2 counterexample: the claim reads the culling window as the closed
interval from `-buffer` to `viewportWidth + buffer`, but the code compares
strictly: with offset 0, width 1024, buffer 300, a marker at world x = -300
lies inside the claimed closed interval yet is filtered out. -/
theorem culling_closed_interval_counterexample :
    (-cullBuffer ≤ (sampleFlower "a" (-300) 10).x + 0
      ∧ (sampleFlower "a" (-300) 10).x + 0 ≤ 1024 + cullBuffer)
    ∧ visibleFlowers .normal [sampleFlower "a" (-300) 10] 0 1024 = [] := by
  refine ⟨⟨?_, ?_⟩, ?_⟩
  · norm_num [sampleFlower, cullBuffer]
  · norm_num [sampleFlower, cullBuffer]
  · norm_num [visibleFlowers, sampleFlower, cullBuffer, List.filter_cons]
    all_goals simp

/-- Claim C2 amended: the culling filter returns all markers unfiltered when
the mode is not `normal`; in `normal` mode it keeps exactly the markers whose
screen-space position `x + offset` lies in the open interval
`(-buffer, viewportWidth + buffer)` with buffer = 300.  The four concrete
examples of the claim hold as stated (offset 0, width 1024): x = -250 kept,
x = -400 dropped, x = 1300 kept, x = 1400 dropped. -/
theorem culling_filter_characterization :
    (∀ (u : UserState) (fs : List Flower) (o w : ℚ), u ≠ .normal →
        visibleFlowers u fs o w = fs)
    ∧ (∀ (fs : List Flower) (o w : ℚ) (f : Flower),
        f ∈ visibleFlowers .normal fs o w ↔
          f ∈ fs ∧ -cullBuffer < f.x + o ∧ f.x + o < w + cullBuffer)
    ∧ sampleFlower "a" (-250) 0 ∈ visibleFlowers .normal [sampleFlower "a" (-250) 0] 0 1024
    ∧ sampleFlower "b" (-400) 0 ∉ visibleFlowers .normal [sampleFlower "b" (-400) 0] 0 1024
    ∧ sampleFlower "c" 1300 0 ∈ visibleFlowers .normal [sampleFlower "c" 1300 0] 0 1024
    ∧ sampleFlower "d" 1400 0 ∉ visibleFlowers .normal [sampleFlower "d" 1400 0] 0 1024 := by
  refine ⟨?_, ?_, ?_, ?_, ?_, ?_⟩
  · intro u fs o w hu
    cases u with
    | normal => exact absurd rfl hu
    | viewing => simp [visibleFlowers]
    | planting => simp [visibleFlowers]
  · intro fs o w f
    simp [visibleFlowers, List.mem_filter, and_assoc]
  all_goals norm_num [visibleFlowers, sampleFlower, cullBuffer, List.filter_cons]
  all_goals simp

theorem culling_filter_characterization_witness :
    visibleFlowers .viewing [sampleFlower "e" (-400) 0] 0 1024
      = [sampleFlower "e" (-400) 0] :=
  culling_filter_characterization.1 .viewing [sampleFlower "e" (-400) 0] 0 1024 (by decide)

/-- The computed inline style of one flower: screen position, scale factor,
opacity and stacking order.  A style without an explicit `opacity` renders at
the CSS default 1; `scale` is read off the `transform` string. -/
structure FlowerStyle where
  left : ℚ
  top : ℚ
  scale : ℚ
  opacity : ℚ
  zIndex : ℕ
  deriving DecidableEq, Repr

/-- Test `selectedFlower?.id === flower.id`. -/
def isSelectedId (selectedFlower : Option Flower) (f : Flower) : Bool :=
  match selectedFlower with
  | some sel => decide (sel.id = f.id)
  | none => false

/-- Function `getFlowerStyle` of the first `GardenPage` revision: the selected flower
is pinned to the focal point (`viewportWidth / 2 - 150`, 15% of the viewport
height) at scale 3 and zIndex 50; while viewing, every other flower sits at
`flower.x + preZoomOffset` with opacity 0, scale 0.5 and zIndex 10;
otherwise flowers sit at `flower.x + offset` with scale 1 and zIndex 10. -/
def getFlowerStyle (userState : UserState) (selectedFlower : Option Flower) (flower : Flower)
    (offset preZoomOffset viewportWidth viewportHeight : ℚ) : FlowerStyle :=
  let isThisFlowerSelected := isSelectedId selectedFlower flower
  let isOtherFlowerSelected := selectedFlower.isSome && !isThisFlowerSelected
  if userState = .viewing ∧ isThisFlowerSelected = true then
    { left := viewportWidth / 2 - 150, top := viewportHeight * (15 / 100),
      scale := 3, opacity := 1, zIndex := 50 }
  else if userState = .viewing ∧ isOtherFlowerSelected = true then
    { left := flower.x + preZoomOffset, top := flower.y,
      scale := 1 / 2, opacity := 0, zIndex := 10 }
  else
    { left := flower.x + offset, top := flower.y, scale := 1, opacity := 1, zIndex := 10 }

/-- Function `getFlowerStyle` of the second `GardenPage` revision: the selected flower
is pinned at (`viewportWidth / 2`, 45% of the viewport height) at scale 2 and
zIndex 50; while viewing, every other flower is hidden at the fixed position
`flower.x` — no camera translation at all — with opacity 0, scale 0.5 and
zIndex 10; otherwise `flower.x + offset` with scale 1 and zIndex 10. -/
def getFlowerStyleV2 (userState : UserState) (selectedFlower : Option Flower) (flower : Flower)
    (offset preZoomOffset viewportWidth viewportHeight : ℚ) : FlowerStyle :=
  let isThisFlowerSelected := isSelectedId selectedFlower flower
  let isOtherFlowerSelected := selectedFlower.isSome && !isThisFlowerSelected
  if userState = .viewing ∧ isThisFlowerSelected = true then
    { left := viewportWidth / 2, top := viewportHeight * (45 / 100),
      scale := 2, opacity := 1, zIndex := 50 }
  else if userState = .viewing ∧ isOtherFlowerSelected = true then
    { left := flower.x, top := flower.y,
      scale := 1 / 2, opacity := 0, zIndex := 10 }
  else
    { left := flower.x + offset, top := flower.y, scale := 1, opacity := 1, zIndex := 10 }

/-- Claim C3 counterexample: in the second revision of `getFlowerStyle` a
non-selected marker while viewing is not positioned with `savedOffset`: with
world x = 100 and savedOffset 50 the claim demands screen x = 150, but the
code places the marker at the bare world coordinate 100 (its opacity is 0 as
claimed). -/
theorem hidden_marker_saved_offset_counterexample :
    (getFlowerStyleV2 .viewing (some (sampleFlower "sel" 0 0)) (sampleFlower "other" 100 10)
        7 50 1024 768).left = 100
    ∧ (sampleFlower "other" 100 10).x + 50 = 150
    ∧ (getFlowerStyleV2 .viewing (some (sampleFlower "sel" 0 0)) (sampleFlower "other" 100 10)
        7 50 1024 768).left ≠ (sampleFlower "other" 100 10).x + 50
    ∧ (getFlowerStyleV2 .viewing (some (sampleFlower "sel" 0 0)) (sampleFlower "other" 100 10)
        7 50 1024 768).opacity = 0 := by
  have hids : ("sel" : String) ≠ "other" := by decide
  refine ⟨?_, ?_, ?_, ?_⟩ <;>
    norm_num [getFlowerStyleV2, isSelectedId, sampleFlower, hids]

/-- Claim C3 amended: while viewing, a marker other than the selected one has
opacity exactly 0 in both revisions and its position never uses the live
camera offset; the first revision positions it at `flower.x + preZoomOffset`
(the saved offset), while the second revision positions it at the bare world
coordinate `flower.x`, using neither the live nor the saved offset (the two
agree only when the saved offset is 0). -/
theorem hidden_marker_style (sel f : Flower) (offset preZoom w h : ℚ)
    (hne : sel.id ≠ f.id) :
    (getFlowerStyle .viewing (some sel) f offset preZoom w h).left = f.x + preZoom
    ∧ (getFlowerStyle .viewing (some sel) f offset preZoom w h).opacity = 0
    ∧ (getFlowerStyleV2 .viewing (some sel) f offset preZoom w h).left = f.x
    ∧ (getFlowerStyleV2 .viewing (some sel) f offset preZoom w h).opacity = 0 := by
  refine ⟨?_, ?_, ?_, ?_⟩ <;>
    simp [getFlowerStyle, getFlowerStyleV2, isSelectedId, hne]

theorem hidden_marker_style_witness :
    (getFlowerStyle .viewing (some (sampleFlower "sel" 0 0)) (sampleFlower "oth" 30 4)
        9 20 1024 768).left = (sampleFlower "oth" 30 4).x + 20
    ∧ (getFlowerStyle .viewing (some (sampleFlower "sel" 0 0)) (sampleFlower "oth" 30 4)
        9 20 1024 768).opacity = 0 :=
  ⟨(hidden_marker_style (sampleFlower "sel" 0 0) (sampleFlower "oth" 30 4) 9 20 1024 768
      (by decide)).1,
   (hidden_marker_style (sampleFlower "sel" 0 0) (sampleFlower "oth" 30 4) 9 20 1024 768
      (by decide)).2.1⟩

/-- Claim C8: while viewing, the selected marker's style is pinned to a
designated focal point of the viewport, independent of the live camera
offset: two arbitrary offsets produce identical styles, the scale is 3 > 1,
and the stack order 50 lies strictly above the stack order of any
non-selected marker. -/
theorem selected_marker_fixed_focal (sel f g : Flower) (o1 o2 preZoom w h : ℚ)
    (hsel : sel.id = f.id) (hg : sel.id ≠ g.id) :
    getFlowerStyle .viewing (some sel) f o1 preZoom w h
      = getFlowerStyle .viewing (some sel) f o2 preZoom w h
    ∧ (getFlowerStyle .viewing (some sel) f o1 preZoom w h).left = w / 2 - 150
    ∧ (getFlowerStyle .viewing (some sel) f o1 preZoom w h).scale = 3
    ∧ 1 < (getFlowerStyle .viewing (some sel) f o1 preZoom w h).scale
    ∧ (getFlowerStyle .viewing (some sel) g o1 preZoom w h).zIndex
        < (getFlowerStyle .viewing (some sel) f o1 preZoom w h).zIndex := by
  have hfg : f.id ≠ g.id := by rw [← hsel]; exact hg
  refine ⟨?_, ?_, ?_, ?_, ?_⟩ <;>
    norm_num [getFlowerStyle, isSelectedId, hsel, hg, hfg]

theorem selected_marker_fixed_focal_witness :
    getFlowerStyle .viewing (some (sampleFlower "s" 5 5)) (sampleFlower "s" 5 5)
        3 0 1024 768
      = getFlowerStyle .viewing (some (sampleFlower "s" 5 5)) (sampleFlower "s" 5 5)
        11 0 1024 768 :=
  (selected_marker_fixed_focal (sampleFlower "s" 5 5) (sampleFlower "s" 5 5)
    (sampleFlower "g" 9 9) 3 11 0 1024 768 rfl (by decide)).1

/-- The deep-link insertion used by the shared-flower effect:
`prev.some(f => f.id === flower.id) ? prev : [...prev, flower]`. -/
def insertSharedFlower (prev : List Flower) (flower : Flower) : List Flower :=
  if prev.any fun f => decide (f.id = flower.id) then prev else prev ++ [flower]

/-- Claim C4 counterexample: the placement insertion path
(`handlePlantSuccess`) appends unconditionally — planting a flower whose
id "a" is already in the local list grows the list from 1 to 2 entries
instead of being a no-op. -/
theorem insert_idempotence_counterexample :
    (handlePlantSuccess (sampleFlower "a" 1 2)
        (initState [sampleFlower "a" 1 2])).allFlowers.length = 2
    ∧ (initState [sampleFlower "a" 1 2]).allFlowers.length = 1 := by
  constructor <;> simp [handlePlantSuccess, plantInsert, initState]

/-- Claim C4 amended: only the deep-link insertion path is idempotent —
`insertSharedFlower` on an already-present id is a no-op, and a repeated
deep-link insert of the same id leaves the list (hence its size and the
first-inserted value) unchanged; the placement path `plantInsert` appends
unconditionally, relying on the store to hand back fresh identifiers. -/
theorem local_mapping_insertion (prev : List Flower) (f g : Flower)
    (hid : g.id = f.id) :
    (∀ (p : List Flower) (a : Flower), (p.any fun b => decide (b.id = a.id)) = true →
        insertSharedFlower p a = p)
    ∧ insertSharedFlower (insertSharedFlower prev f) g = insertSharedFlower prev f
    ∧ plantInsert prev f = prev ++ [f] := by
  refine ⟨?_, ?_, rfl⟩
  · intro p a hmem
    simp [insertSharedFlower, hmem]
  · by_cases hf : (prev.any fun b => decide (b.id = f.id)) = true
    · have hg : (prev.any fun b => decide (b.id = g.id)) = true := by
        simpa [hid] using hf
      simp [insertSharedFlower, hf, hg]
    · have hsnd : ((prev ++ [f]).any fun b => decide (b.id = g.id)) = true := by
        simp [List.any_append, hid]
      simp [insertSharedFlower, hf, hsnd]

theorem local_mapping_insertion_witness :
    insertSharedFlower (insertSharedFlower [] (sampleFlower "a" 1 2)) (sampleFlower "a" 3 4)
      = insertSharedFlower [] (sampleFlower "a" 1 2) :=
  (local_mapping_insertion [] (sampleFlower "a" 1 2) (sampleFlower "a" 3 4) rfl).2.1

/-- Claim C7: the edge-scroll policy with T = 200 and Vmax = 8, read as the
code's ordered conditional: velocity `8 * (1 - px/200)` when `px < 200`,
otherwise `-(8 * (1 - (w - px)/200))` when `px > w - 200`, otherwise 0; the
three concrete instances hold: px = 0 gives +8, px = 200 gives 0, and the
center of a 1024-wide viewport gives 0.  In `normal` mode `handleMouseMove`
installs exactly this velocity. -/
theorem edge_scroll_policy (px w : ℚ) :
    (px < 200 → edgeScrollSpeed px w = 8 * (1 - px / 200))
    ∧ (¬ px < 200 → w - 200 < px → edgeScrollSpeed px w = -(8 * (1 - (w - px) / 200)))
    ∧ (¬ px < 200 → ¬ w - 200 < px → edgeScrollSpeed px w = 0)
    ∧ edgeScrollSpeed 0 1024 = 8
    ∧ edgeScrollSpeed 200 1024 = 0
    ∧ edgeScrollSpeed 512 1024 = 0
    ∧ ∀ s : GardenState, s.userState = .normal →
        (handleMouseMove px w s).scrollSpeed = edgeScrollSpeed px w := by
  refine ⟨?_, ?_, ?_, by norm_num [edgeScrollSpeed], by norm_num [edgeScrollSpeed],
      by norm_num [edgeScrollSpeed], ?_⟩
  · intro h1
    simp [edgeScrollSpeed, h1]
  · intro h1 h2
    have hr : w - px < 200 := by linarith
    simp [edgeScrollSpeed, h1, hr]
  · intro h1 h2
    have hr : ¬ w - px < 200 := by intro hc; exact h2 (by linarith)
    simp [edgeScrollSpeed, h1, hr]
  · intro s hn
    simp [handleMouseMove, hn]

theorem edge_scroll_policy_witness :
    edgeScrollSpeed 0 1024 = 8 * (1 - 0 / 200) :=
  (edge_scroll_policy 0 1024).1 (by norm_num)

/-- Claim C9: a grass click while browsing inside the plantable band enters
`planting` with the world point `(clickX - offset, clickY)` — the camera
translation removed; that world point projects back onto the clicked pixel
under the offset at entry, and cancelling and clicking the same pixel again
reproduces the same world point because the offset is restored on exit.  The
concrete instance — screen (500, 120) with offset -50 gives world point
(550, 120) — is the witness. -/
theorem placement_world_point (s : GardenState) (cx cy rh : ℚ)
    (hn : s.userState = .normal) (h0 : 0 ≤ cy) (hh : cy ≤ rh) :
    (step (.grassClick cx cy rh) s).plantingPosition = some (cx - s.offset, cy)
    ∧ (step (.grassClick cx cy rh) s).userState = .planting
    ∧ (cx - s.offset) + s.offset = cx
    ∧ (step (.grassClick cx cy rh)
        (step .exitPlanting (step (.grassClick cx cy rh) s))).plantingPosition
        = some (cx - s.offset, cy) := by
  refine ⟨?_, ?_, by ring, ?_⟩ <;>
    simp [step, rawStep, handleGrassClick, handleExitPlanting, clampScrollEffect, hn, h0, hh]

theorem placement_world_point_witness :
    (step (.grassClick 500 120 600) { initState [] with offset := -50 }).plantingPosition
      = some (550, 120) := by
  have h := (placement_world_point { initState [] with offset := -50 } 500 120 600 rfl
      (by norm_num) (by norm_num)).1
  rw [h]
  norm_num [initState]

/-- The `setTimeout` duration in `handlePlantSuccess`: the glow is removed
after 12.5 seconds (2.5s animation times 5 iterations). -/
def highlightDuration : ℕ := 12500

/-- The highlight mechanism of `handlePlantSuccess`, replayed over a
time-ordered list of successful placements `(time, flowerId)`: each placement
overwrites the single `newlyPlantedFlowerId` cell with its id and schedules
an uncancelled `setTimeout` that resets the cell to `none`
`highlightDuration` ms later.  Pending timeouts due at or before the next
placement fire before it; the state is (cell value, pending fire times). -/
def runHighlight : List (ℕ × String) → Option String × List ℕ → Option String × List ℕ
  | [], st => st
  | (t, i) :: rest, (_, timers) =>
      runHighlight rest (some i, (timers.filter fun c => decide (t < c)) ++ [t + highlightDuration])

/-- Cell `newlyPlantedFlowerId` as observed at time `t`: replay the placements
that happened up to `t`, then fire the remaining timeouts that are due. -/
def newlyPlantedAt (placements : List (ℕ × String)) (t : ℕ) : Option String :=
  let done := runHighlight (placements.filter fun p => decide (p.1 ≤ t)) (none, [])
  if done.2.any fun c => decide (c ≤ t) then none else done.1

/-- Claim C5 counterexample: with a second placement at t = 5000 while the
first (t = 0) is still highlighted, per-id independent expiry fails twice:
at t = 6000 flower "a" has already lost its highlight (the single cell holds
"b") although its 12500 ms have not elapsed, and at t = 13000 the first
placement's stale timer has cleared "b" although "b"'s own duration runs
until 17500. -/
theorem highlight_overlap_counterexample :
    newlyPlantedAt [(0, "a"), (5000, "b")] 6000 = some "b"
    ∧ newlyPlantedAt [(0, "a"), (5000, "b")] 6000 ≠ some "a"
    ∧ 6000 < 0 + highlightDuration
    ∧ newlyPlantedAt [(0, "a"), (5000, "b")] 13000 = none
    ∧ 13000 < 5000 + highlightDuration := by
  refine ⟨?_, ?_, by norm_num [highlightDuration], ?_, by norm_num [highlightDuration]⟩ <;>
    simp [newlyPlantedAt, runHighlight, highlightDuration]

/-- Claim C5 amended: the pending highlight is a single cell, not a set of
ids with independent timers.  A lone placement is highlighted from its
creation until exactly `highlightDuration` ms later and not before (first
conjunct).  When a second placement lands while the first is pending, the
second id replaces the first immediately (second conjunct), and the first
placement's uncancelled timer clears the second highlight already at
`t1 + highlightDuration`, before the second's own duration elapses (third
conjunct). -/
theorem highlight_single_cell (t0 t1 t2 t : ℕ) (i0 i1 i2 : String) :
    (newlyPlantedAt [(t0, i0)] t
        = if t0 ≤ t ∧ t < t0 + highlightDuration then some i0 else none)
    ∧ (t1 < t2 → t2 < t1 + highlightDuration → t2 ≤ t → t < t1 + highlightDuration →
        newlyPlantedAt [(t1, i1), (t2, i2)] t = some i2)
    ∧ (t1 < t2 → t2 < t1 + highlightDuration → t1 + highlightDuration ≤ t →
        t < t2 + highlightDuration →
        newlyPlantedAt [(t1, i1), (t2, i2)] t = none) := by
  refine ⟨?_, ?_, ?_⟩
  · by_cases h1 : t0 ≤ t
    · by_cases h2 : t0 + highlightDuration ≤ t
      · have hnot : ¬ t < t0 + highlightDuration := by omega
        simp [newlyPlantedAt, runHighlight, h1, h2, hnot]
      · have hlt : t < t0 + highlightDuration := by omega
        simp [newlyPlantedAt, runHighlight, h1, h2, hlt]
    · have hnot : ¬ (t0 ≤ t ∧ t < t0 + highlightDuration) := by omega
      simp [newlyPlantedAt, runHighlight, h1, hnot]
  · intro h12 hov h2t ht
    have h1t : t1 ≤ t := by omega
    have hd1 : ¬ t1 + highlightDuration ≤ t := by omega
    have hd2 : ¬ t2 + highlightDuration ≤ t := by omega
    simp [newlyPlantedAt, runHighlight, h1t, h2t, hov, hd1, hd2]
  · intro h12 hov hd1 ht
    have h1t : t1 ≤ t := by omega
    have h2t : t2 ≤ t := by omega
    simp [newlyPlantedAt, runHighlight, h1t, h2t, hov, hd1]

theorem highlight_single_cell_witness :
    newlyPlantedAt [(100, "x"), (200, "y")] 300 = some "y" :=
  (highlight_single_cell 0 100 200 300 "z" "x" "y").2.1 (by norm_num)
    (by norm_num [highlightDuration]) (by norm_num) (by norm_num [highlightDuration])

/-- A JSON value as destructured from a request body; an absent field
destructures to `undef` (JavaScript `undefined`). -/
inductive JsonVal
  | str (s : String)
  | num (q : ℚ)
  | jbool (b : Bool)
  | jnull
  | undef
  deriving DecidableEq, Repr

/-- JavaScript truthiness for the values a JSON body can hold. -/
def truthy : JsonVal → Bool
  | .str s => decide (s ≠ "")
  | .num q => decide (q ≠ 0)
  | .jbool b => b
  | .jnull => false
  | .undef => false

/-- The destructured POST body `{ title, message, author, x, y, flower }`. -/
structure PostBody where
  title : JsonVal
  message : JsonVal
  author : JsonVal
  x : JsonVal
  y : JsonVal
  flower : JsonVal
  deriving DecidableEq, Repr

/-- The route's validation condition:
`!title || !message || x === undefined || y === undefined || !flower`. -/
def missingRequiredFields (b : PostBody) : Bool :=
  !truthy b.title || !truthy b.message || decide (b.x = .undef) || decide (b.y = .undef)
    || !truthy b.flower

/-- JavaScript `Math.round`: round half towards positive infinity. -/
def jsRound (q : ℚ) : ℤ := ⌊q + 1 / 2⌋

/-- String content of a JSON value (the handler reads it only from values it
checked to be truthy strings). -/
def jsonString : JsonVal → String
  | .str s => s
  | _ => ""

/-- Numeric content of a JSON value. -/
def jsonNum : JsonVal → ℚ
  | .num q => q
  | _ => 0

/-- Outcome of `POST /api/flowers`: a 400 `badRequest`, or the row handed to
the store.  The slug comes from `generateSlug` whose suffix is randomized
(`crypto.randomUUID`), hence a parameter here; store-side failures (500) are
external. -/
inductive PostResult
  | badRequest (error : String)
  | insertRow (title slug message : String) (author : Option String) (x y : ℤ) (flower : String)
  deriving DecidableEq, Repr

/-- The `POST` handler of `app/api/flowers/route.ts` (later revision, which
also rounds the coordinates and defaults `author` to null): reject with 400
"Missing required fields" when `!title || !message || x === undefined ||
y === undefined || !flower`, otherwise insert. -/
def postHandler (slug : String) (b : PostBody) : PostResult :=
  if missingRequiredFields b = true then .badRequest "Missing required fields"
  else
    .insertRow (jsonString b.title) slug (jsonString b.message)
      (if truthy b.author = true then some (jsonString b.author) else none)
      (jsRound (jsonNum b.x)) (jsRound (jsonNum b.y)) (jsonString b.flower)

theorem postHandler_badRequest_iff (slug : String) (b : PostBody) :
    postHandler slug b = .badRequest "Missing required fields" ↔
      missingRequiredFields b = true := by
  unfold postHandler
  by_cases h : missingRequiredFields b = true
  · simp [h]
  · simp [h]

/-- Claim C10: on a well-typed body (string-or-absent text fields,
number-or-absent coordinates) the create endpoint rejects with 400
"Missing required fields" exactly when title, message or flower is missing
or the empty string, or x or y is absent; since the coordinate check is
`x === undefined` and not truthiness, coordinates equal to 0 pass, so a
marker can be created at world position (0, 0) (second conjunct). -/
theorem post_validation_exact (slug : String) (b : PostBody)
    (htitle : b.title = .undef ∨ ∃ s, b.title = .str s)
    (hmessage : b.message = .undef ∨ ∃ s, b.message = .str s)
    (hflower : b.flower = .undef ∨ ∃ s, b.flower = .str s)
    (hx : b.x = .undef ∨ ∃ q, b.x = .num q)
    (hy : b.y = .undef ∨ ∃ q, b.y = .num q) :
    (postHandler slug b = .badRequest "Missing required fields" ↔
      (b.title = .undef ∨ b.title = .str "" ∨ b.message = .undef ∨ b.message = .str ""
        ∨ b.x = .undef ∨ b.y = .undef ∨ b.flower = .undef ∨ b.flower = .str ""))
    ∧ (∀ t m fl : String, t ≠ "" → m ≠ "" → fl ≠ "" →
        postHandler slug
            (PostBody.mk (.str t) (.str m) .undef (.num 0) (.num 0) (.str fl))
          = .insertRow t slug m none (jsRound 0) (jsRound 0) fl) := by
  constructor
  · rw [postHandler_badRequest_iff]
    obtain ⟨bt, bm, ba, bx, byy, bf⟩ := b
    simp only at htitle hmessage hflower hx hy ⊢
    rcases htitle with rfl | ⟨ts, rfl⟩ <;> rcases hmessage with rfl | ⟨ms, rfl⟩ <;>
      rcases hflower with rfl | ⟨fs, rfl⟩ <;> rcases hx with rfl | ⟨xq, rfl⟩ <;>
      rcases hy with rfl | ⟨yq, rfl⟩ <;>
      simp [missingRequiredFields, truthy] <;> tauto
  · intro t m fl ht hm hfl
    simp [postHandler, missingRequiredFields, truthy, jsonString, jsonNum, ht, hm, hfl]

theorem post_validation_exact_witness :
    postHandler "hello-abc123"
        (PostBody.mk (.str "hello") (.str "world") .undef (.num 0) (.num 0) (.str "red-tulip"))
      = .insertRow "hello" "hello-abc123" "world" none 0 0 "red-tulip" := by
  have h := (post_validation_exact "hello-abc123"
      (PostBody.mk (.str "hello") (.str "world") .undef (.num 0) (.num 0) (.str "red-tulip"))
      (Or.inr ⟨"hello", rfl⟩) (Or.inr ⟨"world", rfl⟩) (Or.inr ⟨"red-tulip", rfl⟩)
      (Or.inr ⟨0, rfl⟩) (Or.inr ⟨0, rfl⟩)).2 "hello" "world" "red-tulip"
      (by decide) (by decide) (by decide)
  rw [h]
  norm_num [jsRound]

end Digigarden
